import Mathlib

/-!
Shallow embedding of the CT1_PC production-test orchestrator
(src/common.py, src/ATPFWDL.py, src/SARF.py, src/CT1_DL.py) and proofs
about its station-procedure engine: UART command exchange, ADB device
readiness gate, completion monitor, LTE RX retry policy, and the station
procedures with their teardown behaviour.

External effects (serial transport, subprocess outputs, instrument
answers) are supplied by explicit environment records; the definitions
replay the Python control flow over those inputs and additionally record
observable effects (commands sent, port open/close, poll counts).
-/

/-- Python substring membership: isPrefixList p l decides whether p is an
initial segment of l (helper for the `in` operator on strings). -/
def isPrefixList : List Char → List Char → Bool
  | [], _ => true
  | _ :: _, [] => false
  | p :: ps, c :: cs => p = c && isPrefixList ps cs

/-- containsAux pat l decides whether pat occurs contiguously in l. -/
def containsAux (pat : List Char) : List Char → Bool
  | [] => isPrefixList pat []
  | c :: cs => isPrefixList pat (c :: cs) || containsAux pat cs

/-- strContains s pat is Python `pat in s` on strings. -/
def strContains (s pat : String) : Bool :=
  containsAux pat.toList s.toList

/-! ### UART command exchange (common.py, sendUartCommand) -/

/-- Behaviour of the serial transport during one sendUartCommand call:
the `serial.Serial` constructor raises, a `SerialException` is raised
after the port was opened (during reset/write/read), or the exchange
completes and `recv s` is the accumulated received text `strResponse`. -/
inductive SerialEvent where
  | openFail
  | failAfterOpen
  | recv (s : String)
deriving DecidableEq, Repr

/-- Expected-response table of sendUartCommand (the if/elif chain,
common.py lines 232-246): the seven known request tokens and their
RES_*_OK responses; any other command has no expected response. -/
def expectedResponse (strCommand : String) : Option String :=
  if strCommand = "REQ_DC_IN" then some "RES_DC_IN_OK"
  else if strCommand = "REQ_DC_OUT" then some "RES_DC_OUT_OK"
  else if strCommand = "REQ_POWER_ON" then some "RES_POWER_ON_OK"
  else if strCommand = "REQ_POWER_OFF" then some "RES_POWER_OFF_OK"
  else if strCommand = "REQ_BOOT_ON" then some "RES_BOOT_ON_OK"
  else if strCommand = "REQ_BOOT_OFF" then some "RES_BOOT_OFF_OK"
  else if strCommand = "REQ_INIT" then some "RES_INIT_OK"
  else none

/-- The seven known UART request tokens paired with their expected
responses, as listed in the if/elif chain of sendUartCommand. -/
def uartTokens : List (String × String) :=
  [("REQ_DC_IN", "RES_DC_IN_OK"),
   ("REQ_DC_OUT", "RES_DC_OUT_OK"),
   ("REQ_POWER_ON", "RES_POWER_ON_OK"),
   ("REQ_POWER_OFF", "RES_POWER_OFF_OK"),
   ("REQ_BOOT_ON", "RES_BOOT_ON_OK"),
   ("REQ_BOOT_OFF", "RES_BOOT_OFF_OK"),
   ("REQ_INIT", "RES_INIT_OK")]

/-- Observable outcome of one sendUartCommand call: the returned value
(none models Python's implicit `return None` fall-through), whether the
port got opened, and whether `objSer.close()` was reached. -/
structure UartRun where
  result : Option Bool
  opened : Bool
  closed : Bool
deriving DecidableEq, Repr

/-- sendUartCommand (common.py lines 218-284), with the port state made
explicit.  On `openFail` the except-handler returns False (port never
opened); on `failAfterOpen` the except-handler returns False and the
`objSer.close()` on line 273 is never reached (there is no finally); on
a completed exchange the response is the received text when
bWaitForResponse, else the empty string, the port is closed, and the
result is the substring test against the expected response - or None
when the command is not a known token. -/
def sendUartCommandRun (strCommand : String) (ev : SerialEvent)
    (bWaitForResponse : Bool) : UartRun :=
  match ev with
  | .openFail => ⟨some false, false, false⟩
  | .failAfterOpen => ⟨some false, true, false⟩
  | .recv s =>
    let strResponse := if bWaitForResponse then s else ""
    match expectedResponse strCommand with
    | some exp => ⟨some (strContains strResponse exp), true, true⟩
    | none => ⟨none, true, true⟩

/-- Returned value of sendUartCommand. -/
def sendUartCommand (strCommand : String) (ev : SerialEvent)
    (bWaitForResponse : Bool := true) : Option Bool :=
  (sendUartCommandRun strCommand ev bWaitForResponse).result

/-- Python truthiness of a sendUartCommand result, as used in
`if not sendUartCommand(...)`: None and False are both falsy. -/
def truthy : Option Bool → Bool
  | some true => true
  | _ => false

/-! ### Device readiness gate (common.py, checkAndGetAdbDevice) -/

/-- Outcome of one `adb devices` invocation inside the polling loop:
either `subprocess.run` raises (the except-branch) or it yields the
stdout text. -/
inductive PollOutcome where
  | raise
  | out (stdout : String)
deriving Repr

/-- Leading-whitespace removal on a character list (helper for the
Python str.strip and str.split semantics). -/
def dropWhileWS : List Char → List Char
  | [] => []
  | c :: cs => if c.isWhitespace then dropWhileWS cs else c :: cs

/-- Python str.strip(): remove leading and trailing whitespace. -/
def stripList (l : List Char) : List Char :=
  dropWhileWS ((dropWhileWS l.reverse).reverse)

/-- Split a character list at each newline, keeping empty segments, as
Python str.split of a newline does. -/
def splitOnNewline : List Char → List (List Char)
  | [] => [[]]
  | c :: cs =>
    if c = '\n' then [] :: splitOnNewline cs
    else
      match splitOnNewline cs with
      | [] => [[c]]
      | w :: ws => (c :: w) :: ws

/-- Python `strOutput.strip().split('\n')`: the stripped text's lines. -/
def strStripSplitLines (s : String) : List String :=
  (splitOnNewline (stripList s.toList)).map String.mk

/-- First maximal run of non-whitespace characters. -/
def takeWhileNotWS : List Char → List Char
  | [] => []
  | c :: cs => if c.isWhitespace then [] else c :: takeWhileNotWS cs

/-- Python `strLine.split()[0]`: first whitespace-separated word. -/
def firstWord (s : String) : String :=
  String.mk (takeWhileNotWS (dropWhileWS s.toList))

/-- Scan of the device-list lines (common.py lines 307-313): first line
that is non-empty, contains "device" and does not contain "emulator"
yields its first word as auto-detected device id. -/
def scanDeviceLines : List String → Option String
  | [] => none
  | l :: ls =>
    if l ≠ "" ∧ strContains l "device" = true ∧ strContains l "emulator" = false
    then some (firstWord l)
    else scanDeviceLines ls

/-- Result of checkAndGetAdbDevice, with the number of device-listing
polling attempts performed recorded as an observable effect. -/
structure AdbGate where
  ready : Bool
  deviceId : Option String
  adbArgs : Option (List String)
  polls : Nat
deriving DecidableEq, Repr

/-- Polling loop of checkAndGetAdbDevice (common.py lines 299-326):
k is the index of the next poll (= polls performed so far), and the
second Nat argument is the remaining retry budget nMaxRetries - k.
A raising poll and a non-matching poll both consume one retry; a
matching poll breaks out with ready = true. Returns (ready, device id,
total polls performed). -/
def checkAdbLoop (poll : Nat → PollOutcome) :
    Option String → Nat → Nat → Bool × Option String × Nat
  | dev, k, 0 => (false, dev, k)
  | dev, k, r + 1 =>
    match poll k with
    | .raise => checkAdbLoop poll dev (k + 1) r
    | .out s =>
      match dev with
      | some d =>
        if strContains s d then (true, some d, k + 1)
        else checkAdbLoop poll (some d) (k + 1) r
      | none =>
        match scanDeviceLines ((strStripSplitLines s).drop 1) with
        | some d => (true, some d, k + 1)
        | none => checkAdbLoop poll none (k + 1) r

/-- checkAndGetAdbDevice (common.py lines 286-335): on exhausted retries
returns (False, None, None); on success builds the adb command argument
list, adding "-s id" when a device id is known. -/
def checkAndGetAdbDevice (poll : Nat → PollOutcome)
    (strDeviceId : Option String) (nMaxRetries : Nat := 30) : AdbGate :=
  match checkAdbLoop poll strDeviceId 0 nMaxRetries with
  | (false, _, k) => ⟨false, none, none, k⟩
  | (true, dev, k) =>
    let args := match dev with
      | some d => ["adb", "-s", d]
      | none => ["adb"]
    ⟨true, dev, some args, k⟩

/-- Decides that one poll finds no device: a raising poll always, and an
output poll when the given device id is absent from the output
(respectively, when auto-detection finds no usable line). -/
def pollNoDevice (strDeviceId : Option String) : PollOutcome → Bool
  | .raise => true
  | .out s =>
    match strDeviceId with
    | some d => !(strContains s d)
    | none => (scanDeviceLines ((strStripSplitLines s).drop 1)).isNone

/-! ### Completion monitor (common.py, waitForTestCompletion) -/

/-- What the polling loop observes at one iteration, in the order the
loop checks them: the wall-clock timeout has elapsed, the logcat process
has exited (`poll()` is not None), or `readline()` returned the text s
(s = "" models no line available, which only sleeps). -/
inductive MonitorStep where
  | timeout
  | procExit
  | line (s : String)
deriving Repr

/-- Environment of one waitForTestCompletion call: the adb polling
behaviour feeding checkAndGetAdbDevice, the optional device id argument,
the stdout of the `am broadcast` dispatch, the per-iteration loop
observations, the stdout of the `test -e` file-existence check, and the
stderr of the `adb pull` transfer. -/
structure MonitorEnv where
  adbPoll : Nat → PollOutcome
  strDeviceId : Option String
  broadcastStdout : String
  steps : Nat → MonitorStep
  checkStdout : String
  pullStderr : String

/-- Observable outcome of waitForTestCompletion: the returned boolean,
whether the background logcat process was terminated by the finally
block (it exists once Popen ran), and how many iterations of the
polling loop were entered. -/
structure MonitorRun where
  result : Bool
  logcatTerminated : Bool
  pollIters : Nat
deriving DecidableEq, Repr

/-- Polling loop of waitForTestCompletion (common.py lines 397-441),
fuel-bounded. Per iteration: timeout elapsed returns False; a dead
logcat process breaks with bTestSuccess still False; a line containing
"ATP Test Finish!!" runs the file check (absent "EXISTS" returns False)
and the pull (result is whether "1 file pulled" is in the pull stderr);
any other line, or no line, continues. Returns (result, iterations
entered), or none when the fuel runs out before the loop exits. -/
def monitorLoop (steps : Nat → MonitorStep) (checkStdout pullStderr : String) :
    Nat → Nat → Option (Bool × Nat)
  | 0, _ => none
  | fuel + 1, i =>
    match steps i with
    | .timeout => some (false, i + 1)
    | .procExit => some (false, i + 1)
    | .line s =>
      if s ≠ "" ∧ strContains s "ATP Test Finish!!" = true then
        if strContains checkStdout "EXISTS" = false then some (false, i + 1)
        else some (strContains pullStderr "1 file pulled", i + 1)
      else monitorLoop steps checkStdout pullStderr fuel (i + 1)

/-- waitForTestCompletion (common.py lines 337-452): device readiness
gate first (not ready returns False before the logcat process exists);
then logcat Popen; then the broadcast dispatch, whose stdout must
contain "Broadcast completed" or the function returns False at once
(loop never entered, logcat terminated by the finally); otherwise the
polling loop decides the result and the finally terminates logcat. -/
def waitForTestCompletion (env : MonitorEnv) (fuel : Nat) : Option MonitorRun :=
  if (checkAndGetAdbDevice env.adbPoll env.strDeviceId 30).ready = false then
    some ⟨false, false, 0⟩
  else if strContains env.broadcastStdout "Broadcast completed" = false then
    some ⟨false, true, 0⟩
  else
    match monitorLoop env.steps env.checkStdout env.pullStderr fuel 0 with
    | some (r, iters) => some ⟨r, true, iters⟩
    | none => none

/-- Decides that a loop observation does not trigger the completion
branch and does not exit the loop: a readline result that is empty or
lacks the completion phrase. -/
def stepNoFinish : MonitorStep → Bool
  | .line s => !(s ≠ "" ∧ strContains s "ATP Test Finish!!" = true : Bool)
  | _ => false

/-! ### LTE RX measurement (common.py, getLTERXResult) -/

/-- Environment of one getLTERXResult call: the adb polling behaviour
feeding its readiness gate, and for each attempt index the list of
integer pairs matched by `re.findall` against the captured modem log
(pattern QRXFTM: first group, second group). -/
structure RxEnv where
  adbPoll : Nat → PollOutcome
  attempts : Nat → List (Int × Int)

/-- Outcome of getLTERXResult: the returned measured value (None on
failure) and the number of measurement attempts performed. -/
structure RxRun where
  value : Option Int
  attempts : Nat
deriving DecidableEq, Repr

/-- Retry loop of getLTERXResult (common.py lines 773-808): the first
Nat argument is the remaining retry budget (maxRetry - retryCount), the
second the attempt index performed so far. Each attempt re-arms the
band and issues the RX AT command, then parses the captured log: when
matches exist, the most recent match's second group is the measured
value, returned at once when it meets the threshold; a below-threshold
value or no match retries. Exhausting the budget returns None. -/
def rxLoop (attempts : Nat → List (Int × Int)) (fRxThreshold : Int) :
    Nat → Nat → Option Int × Nat
  | 0, k => (none, k)
  | r + 1, k =>
    match (attempts k).getLast? with
    | some m =>
      if fRxThreshold ≤ m.2 then (some m.2, k + 1)
      else rxLoop attempts fRxThreshold r (k + 1)
    | none => rxLoop attempts fRxThreshold r (k + 1)

/-- getLTERXResult (common.py lines 755-821): readiness gate first (not
ready returns None with no attempt); an unsupported band returns None on
entry to the loop before any measurement; otherwise the retry loop with
maxRetry = 3 decides the result. -/
def getLTERXResult (env : RxEnv) (iLteBand : Int) (fRxThreshold : Int) : RxRun :=
  if (checkAndGetAdbDevice env.adbPoll none 30).ready = false then ⟨none, 0⟩
  else if iLteBand = 1 ∨ iLteBand = 26 then
    ⟨(rxLoop env.attempts fRxThreshold 3 0).1, (rxLoop env.attempts fRxThreshold 3 0).2⟩
  else ⟨none, 0⟩

/-! ### Station procedures (ATPFWDL.py, CT1_DL.py, SARF.py) -/

/-- How a station procedure call ends: it returns a boolean, or an
exception escapes it. -/
inductive Outcome where
  | ret (b : Bool)
  | exn
deriving DecidableEq, Repr

/-- Observable trace of one atpfwdlProcess or atpfwdl_process call: how
it ended, which UART commands the body sent in order, and how many
times the teardown in the finally block attempted the REQ_INIT UART
command. -/
structure StationRun where
  outcome : Outcome
  bodyUartSent : List String
  teardownInits : Nat
deriving DecidableEq, Repr

/-- Environment of one ATPFWDL-station call: whether a COM port was
supplied, the serial transport behaviour of the successive UART
exchanges of the body (indexed in call order), the successive
checkDeviceConnection outcomes, the updateFirmware outcome and the
waitForTestCompletion outcome. -/
structure AtpEnv where
  comPortGiven : Bool
  uart : Nat → SerialEvent
  conn : Nat → Bool
  flashOk : Bool
  monitorOk : Bool

/-- Connection-check retry loop of atpfwdlProcess (ATPFWDL.py lines
50-61): up to the given budget of checkDeviceConnection calls, stopping
at the first success. -/
def connCheckLoop (conn : Nat → Bool) : Nat → Nat → Bool
  | _, 0 => false
  | k, r + 1 => if conn k then true else connCheckLoop conn (k + 1) r

/-- Body of atpfwdlProcess (ATPFWDL.py lines 30-85): REQ_INIT (fatal on
failure), REQ_BOOT_ON (fatal), REQ_POWER_ON (fatal), REQ_DC_IN (fatal),
connection check with 3 retries (fatal), REQ_BOOT_OFF (warning only),
firmware flash (fatal), completion monitor (fatal). Returns the body's
result and the UART commands sent. -/
def atpfwdlBody (env : AtpEnv) : Bool × List String :=
  if ¬ truthy (sendUartCommand "REQ_INIT" (env.uart 0)) then
    (false, ["REQ_INIT"])
  else if ¬ truthy (sendUartCommand "REQ_BOOT_ON" (env.uart 1)) then
    (false, ["REQ_INIT", "REQ_BOOT_ON"])
  else if ¬ truthy (sendUartCommand "REQ_POWER_ON" (env.uart 2)) then
    (false, ["REQ_INIT", "REQ_BOOT_ON", "REQ_POWER_ON"])
  else if ¬ truthy (sendUartCommand "REQ_DC_IN" (env.uart 3)) then
    (false, ["REQ_INIT", "REQ_BOOT_ON", "REQ_POWER_ON", "REQ_DC_IN"])
  else if ¬ connCheckLoop env.conn 0 3 then
    (false, ["REQ_INIT", "REQ_BOOT_ON", "REQ_POWER_ON", "REQ_DC_IN"])
  else
    -- REQ_BOOT_OFF is sent but its failure only logs a warning
    if ¬ env.flashOk then
      (false, ["REQ_INIT", "REQ_BOOT_ON", "REQ_POWER_ON", "REQ_DC_IN", "REQ_BOOT_OFF"])
    else if ¬ env.monitorOk then
      (false, ["REQ_INIT", "REQ_BOOT_ON", "REQ_POWER_ON", "REQ_DC_IN", "REQ_BOOT_OFF"])
    else
      (true, ["REQ_INIT", "REQ_BOOT_ON", "REQ_POWER_ON", "REQ_DC_IN", "REQ_BOOT_OFF"])

/-- atpfwdlProcess (ATPFWDL.py lines 10-100): a missing COM port returns
False before the try block, so the finally never runs and no teardown
REQ_INIT is attempted; otherwise the body's return value survives and
the finally attempts the teardown REQ_INIT exactly once, inside its own
try/except, so a teardown failure neither changes the result nor
raises. -/
def atpfwdlProcess (env : AtpEnv) : StationRun :=
  if ¬ env.comPortGiven then ⟨.ret false, [], 0⟩
  else
    let body := atpfwdlBody env
    ⟨.ret body.1, body.2, 1⟩

/-- send_uart_command of the CT1_DL variant (CT1_DL.py lines 212-277):
returns the accumulated response text ("" when wait_for_response is
false), or None when a SerialException was raised. -/
def send_uart_command (ev : SerialEvent) (wait_for_response : Bool := true) :
    Option String :=
  match ev with
  | .openFail => none
  | .failAfterOpen => none
  | .recv s => some (if wait_for_response then s else "")

/-- Standard responses list of check_uart_response (CT1_DL.py lines
287-292). -/
def standard_responses : List String :=
  ["RES_DC_IN_OK", "RES_DC_OUT_OK",
   "RES_POWER_ON_OK", "RES_POWER_OFF_OK",
   "RES_BOOT_ON_OK", "RES_BOOT_OFF_OK",
   "RES_INIT_OK"]

/-- check_uart_response (CT1_DL.py lines 279-309): a None response is
invalid; with an expected text given, the response must contain it; with
none given, any standard response in the text is accepted. -/
def check_uart_response (response : Option String) (expected : Option String) :
    Bool :=
  match response with
  | none => false
  | some r =>
    match expected with
    | some e => strContains r e
    | none => standard_responses.any (fun e => strContains r e)

/-- Body of atpfwdl_process (CT1_DL.py lines 518-594): identical step
order to atpfwdlBody, except that a failed initial REQ_INIT only logs a
warning and the sequence continues to REQ_BOOT_ON. -/
def atpfwdl_process_body (env : AtpEnv) : Bool × List String :=
  -- REQ_INIT is sent; a failed check only logs a warning
  if ¬ check_uart_response (send_uart_command (env.uart 1)) (some "RES_BOOT_ON_OK") then
    (false, ["REQ_INIT", "REQ_BOOT_ON"])
  else if ¬ check_uart_response (send_uart_command (env.uart 2)) (some "RES_POWER_ON_OK") then
    (false, ["REQ_INIT", "REQ_BOOT_ON", "REQ_POWER_ON"])
  else if ¬ check_uart_response (send_uart_command (env.uart 3)) (some "RES_DC_IN_OK") then
    (false, ["REQ_INIT", "REQ_BOOT_ON", "REQ_POWER_ON", "REQ_DC_IN"])
  else if ¬ connCheckLoop env.conn 0 3 then
    (false, ["REQ_INIT", "REQ_BOOT_ON", "REQ_POWER_ON", "REQ_DC_IN"])
  else
    -- REQ_BOOT_OFF is sent but its failure only logs a warning
    if ¬ env.flashOk then
      (false, ["REQ_INIT", "REQ_BOOT_ON", "REQ_POWER_ON", "REQ_DC_IN", "REQ_BOOT_OFF"])
    else if ¬ env.monitorOk then
      (false, ["REQ_INIT", "REQ_BOOT_ON", "REQ_POWER_ON", "REQ_DC_IN", "REQ_BOOT_OFF"])
    else
      (true, ["REQ_INIT", "REQ_BOOT_ON", "REQ_POWER_ON", "REQ_DC_IN", "REQ_BOOT_OFF"])

/-- atpfwdl_process (CT1_DL.py lines 508-615): same wrapper shape as
atpfwdlProcess, with the try/except-protected teardown REQ_INIT in the
finally block. -/
def atpfwdl_process (env : AtpEnv) : StationRun :=
  if ¬ env.comPortGiven then ⟨.ret false, [], 0⟩
  else
    let body := atpfwdl_process_body env
    ⟨.ret body.1, body.2, 1⟩

/-- Environment of one sarfProcess call: the COM port check, the serial
transport behaviour of the body's UART exchanges (in call order), and
the outcomes of the collaborator calls in call order - WiFi and BT
configuration, the two IQxel measurements, GPIB setup (manager created,
a GPIB* address found), GPIB connect, the successive sendGPIBCommand
results, the successive `POWER? AVG` query-and-parse results (None
covers both a failed query and an unparseable value, which take the
same return-False path), the successive settingLTETXTest results, the
successive getLTERXResult values, and the completion monitor outcome. -/
structure SarfEnv where
  comPortGiven : Bool
  uart : Nat → SerialEvent
  wifiCfgOk : Bool
  iqxelWifi : Option Int
  btCfgOk : Bool
  iqxelBt : Option Int
  gpibSetupOk : Bool
  gpibAddressFound : Bool
  gpibConnectOk : Bool
  gpibCmdOk : Nat → Bool
  gpibPower : Nat → Option Int
  lteCfgOk : Nat → Bool
  lteRx : Nat → Option Int
  monitorOk : Bool

/-- Loop over a block of sendGPIBCommand calls (SARF.py lines 92-97 and
145-150): commands at indices k, k+1, ... are sent until one fails. -/
def gpibSeq (ok : Nat → Bool) : Nat → Nat → Bool
  | _, 0 => true
  | k, r + 1 => if ¬ ok k then false else gpibSeq ok (k + 1) r

/-- Observable trace of one sarfProcess call: how it ended and how many
times the teardown attempted the REQ_INIT UART command. -/
structure SarfRun where
  outcome : Outcome
  teardownInits : Nat
deriving DecidableEq, Repr

/-- Body of sarfProcess (SARF.py lines 36-200). Returns the body's
result together with whether control reached the assignment
`instrument = connectGPIB(...)` on line 78 - the local name referenced
unconditionally by the finally block. Steps: REQ_INIT (fatal),
REQ_POWER_ON (fatal), REQ_DC_IN (fatal), WiFi configuration (fatal),
WiFi IQxel value (fatal when None), BT configuration (fatal), BT IQxel
value (fatal when None), GPIB setup (fatal when the manager fails or no
GPIB address is found - still before line 78), GPIB connect (fatal, but
the name is now bound), six GPIB commands, LTE band 1 configuration,
SWP, power query/parse, TESTPRM RX_MAX, band 1 RX result, five GPIB
commands, LTE band 26 configuration, SWP, power query/parse, TESTPRM
RX_MAX, band 26 RX result, completion monitor. -/
def sarfBody (env : SarfEnv) : Bool × Bool :=
  if ¬ truthy (sendUartCommand "REQ_INIT" (env.uart 0)) then (false, false)
  else if ¬ truthy (sendUartCommand "REQ_POWER_ON" (env.uart 1)) then (false, false)
  else if ¬ truthy (sendUartCommand "REQ_DC_IN" (env.uart 2)) then (false, false)
  else if ¬ env.wifiCfgOk then (false, false)
  else if env.iqxelWifi = none then (false, false)
  else if ¬ env.btCfgOk then (false, false)
  else if env.iqxelBt = none then (false, false)
  else if ¬ env.gpibSetupOk ∨ ¬ env.gpibAddressFound then (false, false)
  else if ¬ env.gpibConnectOk then (false, true)
  else if ¬ gpibSeq env.gpibCmdOk 0 6 then (false, true)
  else if ¬ env.lteCfgOk 0 then (false, true)
  else if ¬ env.gpibCmdOk 6 then (false, true)
  else if env.gpibPower 0 = none then (false, true)
  else if ¬ env.gpibCmdOk 7 then (false, true)
  else if env.lteRx 0 = none then (false, true)
  else if ¬ gpibSeq env.gpibCmdOk 8 5 then (false, true)
  else if ¬ env.lteCfgOk 1 then (false, true)
  else if ¬ env.gpibCmdOk 13 then (false, true)
  else if env.gpibPower 1 = none then (false, true)
  else if ¬ env.gpibCmdOk 14 then (false, true)
  else if env.lteRx 1 = none then (false, true)
  else if ¬ env.monitorOk then (false, true)
  else (true, true)

/-- sarfProcess (SARF.py lines 18-210): a missing COM port returns False
before the try block (no teardown). Otherwise the finally block first
evaluates `closeGPIB(instrument)`. When the body left the try before
line 78 bound `instrument`, that evaluation raises UnboundLocalError
inside the finally, so the teardown REQ_INIT on line 205 is never
attempted and the exception escapes the procedure, replacing its return
value. When `instrument` is bound (even to None), closeGPIB swallows
its own errors and the teardown REQ_INIT is attempted exactly once
inside its own try/except. -/
def sarfProcess (env : SarfEnv) : SarfRun :=
  if ¬ env.comPortGiven then ⟨.ret false, 0⟩
  else
    let body := sarfBody env
    if body.2 then ⟨.ret body.1, 1⟩
    else ⟨.exn, 0⟩

/-! ### Concrete environments used by witnesses and counterexamples -/

/-- Polling behaviour under which the readiness gate succeeds on the
first `adb devices` call, auto-detecting device "ABC". -/
def readyPoll : Nat → PollOutcome :=
  fun _ => PollOutcome.out "List of devices attached\nABC\tdevice"

/-- Polling behaviour under which every `adb devices` call raises, so no
device ever appears. -/
def neverPoll : Nat → PollOutcome :=
  fun _ => PollOutcome.raise

/-- Serial transport on which every exchange completes and every reply
contains every RES_*_OK token. -/
def allOkUart : Nat → SerialEvent :=
  fun _ => SerialEvent.recv
    "RES_INIT_OK RES_BOOT_ON_OK RES_POWER_ON_OK RES_DC_IN_OK RES_BOOT_OFF_OK"

/-- ATPFWDL environment in which every external interaction succeeds. -/
def atpEnvAllOk : AtpEnv :=
  { comPortGiven := true, uart := allOkUart, conn := fun _ => true,
    flashOk := true, monitorOk := true }

/-- ATPFWDL environment in which every UART reply is empty (so the
initial REQ_INIT finds no RES_INIT_OK) while everything else succeeds. -/
def atpEnvReqInitFails : AtpEnv :=
  { comPortGiven := true, uart := fun _ => SerialEvent.recv "",
    conn := fun _ => true, flashOk := true, monitorOk := true }

/-- SARF environment in which the initial REQ_INIT finds no RES_INIT_OK
(empty UART replies) while every later collaborator would succeed. -/
def sarfEnvInitFails : SarfEnv :=
  { comPortGiven := true, uart := fun _ => SerialEvent.recv "",
    wifiCfgOk := true, iqxelWifi := some 0, btCfgOk := true,
    iqxelBt := some 0, gpibSetupOk := true, gpibAddressFound := true,
    gpibConnectOk := true, gpibCmdOk := fun _ => true,
    gpibPower := fun _ => some 0, lteCfgOk := fun _ => true,
    lteRx := fun _ => some 0, monitorOk := true }

/-- Monitor environment in which the device is ready, the broadcast is
acknowledged, the first log line carries the completion phrase, the
file-existence check answers EXISTS and the pull reports one file
pulled. -/
def monitorEnvAllOk : MonitorEnv :=
  { adbPoll := readyPoll, strDeviceId := none,
    broadcastStdout := "Broadcast completed",
    steps := fun _ => MonitorStep.line "D TEST: ATP Test Finish!!",
    checkStdout := "EXISTS", pullStderr := "ATPFWDL.txt: 1 file pulled" }

/-- Monitor environment in which the device is ready and the broadcast
is acknowledged but the wall-clock timeout elapses at the first loop
check. -/
def monitorEnvTimesOut : MonitorEnv :=
  { adbPoll := readyPoll, strDeviceId := none,
    broadcastStdout := "Broadcast completed",
    steps := fun _ => MonitorStep.timeout,
    checkStdout := "EXISTS", pullStderr := "" }

/-- Monitor environment in which the device is ready but the broadcast
dispatch output lacks the acknowledgement. -/
def monitorEnvBroadcastFails : MonitorEnv :=
  { adbPoll := readyPoll, strDeviceId := none,
    broadcastStdout := "Error: receiver not found",
    steps := fun _ => MonitorStep.line "",
    checkStdout := "EXISTS", pullStderr := "" }

/-- LTE RX environment in which the device is ready and no attempt ever
yields a parseable QRXFTM match. -/
def rxEnvNoMatch : RxEnv :=
  { adbPoll := readyPoll, attempts := fun _ => [] }

/-- LTE RX environment in which the device is ready, the first attempt
parses a below-threshold value and the second attempt parses a value
meeting the threshold. -/
def rxEnvSecondHit : RxEnv :=
  { adbPoll := readyPoll,
    attempts := fun n => if n = 0 then [(1, -80)] else [(1, -40)] }

/-! ### Helper lemmas -/

/-- Every known token's expected response is the paired RES token. -/
theorem expectedResponse_of_mem :
    ∀ p ∈ uartTokens, expectedResponse p.1 = some p.2 := by decide

/-- Every known token's expected response is a non-empty string that the
empty accumulated response cannot contain. -/
theorem empty_response_misses_token :
    ∀ p ∈ uartTokens, strContains "" p.2 = false := by decide

/-! ### Claim theorems -/

/-- Claim C2: for every known UART request token, sendUartCommand
returns success exactly when the token's expected RES_*_OK response
occurs as a substring of the text received within the timeout window,
and returns False - not an exception - when the serial transport errors
at open or after open (the expected response then being absent). -/
theorem c2_uart_success_iff_response_received (cmd res : String)
    (h : (cmd, res) ∈ uartTokens) (s : String) :
    (sendUartCommand cmd (.recv s) = some true ↔ strContains s res = true) ∧
    sendUartCommand cmd .openFail = some false ∧
    sendUartCommand cmd .failAfterOpen = some false := by
  have he : expectedResponse cmd = some res := expectedResponse_of_mem (cmd, res) h
  refine ⟨?_, rfl, rfl⟩
  simp [sendUartCommand, sendUartCommandRun, he]

/-- Witness for C2 at REQ_INIT, with the expected response received. -/
theorem c2_uart_success_iff_response_received_witness :
    ("REQ_INIT", "RES_INIT_OK") ∈ uartTokens ∧
    ((sendUartCommand "REQ_INIT" (.recv "RES_INIT_OK") = some true ↔
        strContains "RES_INIT_OK" "RES_INIT_OK" = true) ∧
      sendUartCommand "REQ_INIT" .openFail = some false ∧
      sendUartCommand "REQ_INIT" .failAfterOpen = some false) :=
  ⟨by decide,
    c2_uart_success_iff_response_received "REQ_INIT" "RES_INIT_OK" (by decide)
      "RES_INIT_OK"⟩

/-- Claim C3 counterexample: a SerialException raised after the port
was opened makes sendUartCommand return False from the except-handler
without ever reaching objSer.close() - the opened port is not closed on
that exit path. -/
theorem c3_port_left_open_counterexample :
    (sendUartCommandRun "REQ_INIT" .failAfterOpen true).opened = true ∧
    (sendUartCommandRun "REQ_INIT" .failAfterOpen true).closed = false :=
  ⟨rfl, rfl⟩

/-- Claim C3 amended: whenever the exchange completes without a serial
exception after opening, the port is closed before returning, on the
success, expected-response-absent and unknown-token paths alike; when
the open itself fails no port was opened. On a serial exception raised
after opening, the handler returns False without closing the port. -/
theorem c3_port_closed_on_completed_exchange (cmd s : String) (b : Bool) :
    (sendUartCommandRun cmd (.recv s) b).closed = true ∧
    (sendUartCommandRun cmd .openFail b).opened = false ∧
    (sendUartCommandRun cmd .failAfterOpen b).closed = false := by
  refine ⟨?_, rfl, rfl⟩
  unfold sendUartCommandRun
  cases expectedResponse cmd <;> rfl

/-- Claim C10 counterexample: REQ_INIT with bWaitForResponse = False on
a completed exchange returns False, not None - the known token's
expected response is tested against the empty accumulated response. -/
theorem c10_known_token_no_wait_counterexample :
    sendUartCommand "REQ_INIT" (.recv "RES_INIT_OK") false = some false := rfl

/-- Claim C10 amended: a command that is not one of the seven known
request tokens returns None on any completed exchange, whatever
bWaitForResponse is, so boolean-testing callers treat it as a failure;
a known request token with bWaitForResponse = false instead returns
False, because nothing is read and the empty response cannot contain
the expected token. -/
theorem c10_unknown_none_and_known_no_wait_false :
    (∀ cmd s b, expectedResponse cmd = none →
      sendUartCommand cmd (.recv s) b = none) ∧
    (∀ p ∈ uartTokens, ∀ s, sendUartCommand p.1 (.recv s) false = some false) := by
  constructor
  · intro cmd s b h
    simp [sendUartCommand, sendUartCommandRun, h]
  · intro p hp s
    have he : expectedResponse p.1 = some p.2 := expectedResponse_of_mem p hp
    have hm : strContains "" p.2 = false := empty_response_misses_token p hp
    simp [sendUartCommand, sendUartCommandRun, he, hm]

/-- Witness for C10 amended: an unknown command returns None, and
REQ_INIT without waiting returns False. -/
theorem c10_unknown_none_and_known_no_wait_false_witness :
    expectedResponse "REQ_STATUS" = none ∧
    sendUartCommand "REQ_STATUS" (.recv "RES_INIT_OK") true = none ∧
    ("REQ_INIT", "RES_INIT_OK") ∈ uartTokens ∧
    sendUartCommand "REQ_INIT" (.recv "RES_INIT_OK") false = some false :=
  ⟨by decide,
    c10_unknown_none_and_known_no_wait_false.1 "REQ_STATUS" "RES_INIT_OK" true
      (by decide),
    by decide,
    c10_unknown_none_and_known_no_wait_false.2 ("REQ_INIT", "RES_INIT_OK")
      (by decide) "RES_INIT_OK"⟩

/-- Helper for C5: when every poll in the window finds no device, the
polling loop runs through its whole budget, leaves the device id
unchanged, and performs exactly budget many polls. -/
theorem checkAdbLoop_all_fail (poll : Nat → PollOutcome) (dev : Option String) :
    ∀ r k, (∀ i, k ≤ i → i < k + r → pollNoDevice dev (poll i) = true) →
      checkAdbLoop poll dev k r = (false, dev, k + r) := by
  intro r
  induction r with
  | zero => intro k _; rfl
  | succ n ih =>
    intro k h
    have hk : pollNoDevice dev (poll k) = true := h k (Nat.le_refl k) (by omega)
    have hrest : ∀ i, k + 1 ≤ i → i < (k + 1) + n → pollNoDevice dev (poll i) = true :=
      fun i h1 h2 => h i (by omega) (by omega)
    have harith : k + 1 + n = k + (n + 1) := by omega
    unfold checkAdbLoop
    cases hp : poll k with
    | raise =>
      rw [ih (k + 1) hrest]
      simp [harith]
    | out s =>
      rw [hp] at hk
      cases dev with
      | some d =>
        have hd : strContains s d = false := by
          simpa [pollNoDevice] using hk
        dsimp only
        rw [if_neg (by simp [hd])]
        rw [ih (k + 1) hrest]
        simp [harith]
      | none =>
        have hscan : scanDeviceLines ((strStripSplitLines s).drop 1) = none := by
          simpa [pollNoDevice, Option.isNone_iff_eq_none] using hk
        dsimp only
        rw [hscan]
        rw [ih (k + 1) hrest]
        simp [harith]

/-- Claim C5: when no matching device appears during any of the polls,
checkAndGetAdbDevice performs exactly nMaxRetries device-listing
polling attempts - never more - and returns ready = false with no
resolved device id and no command argument list. The source default
for nMaxRetries is 30. -/
theorem c5_adb_gate_exact_retries (poll : Nat → PollOutcome)
    (dev : Option String) (nMaxRetries : Nat)
    (h : ∀ i, i < nMaxRetries → pollNoDevice dev (poll i) = true) :
    checkAndGetAdbDevice poll dev nMaxRetries =
      ⟨false, none, none, nMaxRetries⟩ := by
  have hl := checkAdbLoop_all_fail poll dev nMaxRetries 0
    (fun i _ hi => h i (by omega))
  unfold checkAndGetAdbDevice
  rw [hl]
  simp

/-- Witness for C5: the polling command raising on all 30 default
retries yields ready = false after exactly 30 polls. -/
theorem c5_adb_gate_exact_retries_witness :
    (∀ i, i < 30 → pollNoDevice none (neverPoll i) = true) ∧
    checkAndGetAdbDevice neverPoll none 30 = ⟨false, none, none, 30⟩ :=
  ⟨fun _ _ => rfl, c5_adb_gate_exact_retries neverPoll none 30 (fun _ _ => rfl)⟩

/-- Helper for C6: a polling loop that returns true must have seen a
non-empty line carrying the completion phrase, and the file-existence
output must contain EXISTS and the pull stderr must contain the
transfer acknowledgement. -/
theorem monitorLoop_true_requires (steps : Nat → MonitorStep) (cs ps : String) :
    ∀ fuel i iters, monitorLoop steps cs ps fuel i = some (true, iters) →
      (∃ j s, steps j = .line s ∧ s ≠ "" ∧
        strContains s "ATP Test Finish!!" = true) ∧
      strContains cs "EXISTS" = true ∧ strContains ps "1 file pulled" = true := by
  intro fuel
  induction fuel with
  | zero => intro i iters h; simp [monitorLoop] at h
  | succ n ih =>
    intro i iters h
    unfold monitorLoop at h
    cases hs : steps i with
    | timeout => rw [hs] at h; simp at h
    | procExit => rw [hs] at h; simp at h
    | line s =>
      rw [hs] at h
      dsimp only at h
      by_cases hc : s ≠ "" ∧ strContains s "ATP Test Finish!!" = true
      · rw [if_pos hc] at h
        by_cases hex : strContains cs "EXISTS" = false
        · rw [if_pos hex] at h; simp at h
        · rw [if_neg hex] at h
          simp only [Option.some.injEq, Prod.mk.injEq] at h
          exact ⟨⟨i, s, hs, hc.1, hc.2⟩,
            Bool.eq_true_of_not_eq_false hex, h.1⟩
      · rw [if_neg hc] at h
        exact ih (i + 1) iters h

/-- Claim C6: waitForTestCompletion returns true only when all three
hold: the completion phrase "ATP Test Finish!!" was observed in a
streamed log line, the on-device existence check answered EXISTS, and
the pull command acknowledged "1 file pulled". -/
theorem c6_monitor_true_requires_all (env : MonitorEnv) (fuel : Nat)
    (run : MonitorRun) (h : waitForTestCompletion env fuel = some run)
    (ht : run.result = true) :
    (∃ j s, env.steps j = .line s ∧ s ≠ "" ∧
      strContains s "ATP Test Finish!!" = true) ∧
    strContains env.checkStdout "EXISTS" = true ∧
    strContains env.pullStderr "1 file pulled" = true := by
  unfold waitForTestCompletion at h
  by_cases hg : (checkAndGetAdbDevice env.adbPoll env.strDeviceId 30).ready = false
  · rw [if_pos hg] at h
    simp only [Option.some.injEq] at h
    rw [← h] at ht
    simp at ht
  · rw [if_neg hg] at h
    by_cases hb : strContains env.broadcastStdout "Broadcast completed" = false
    · rw [if_pos hb] at h
      simp only [Option.some.injEq] at h
      rw [← h] at ht
      simp at ht
    · rw [if_neg hb] at h
      cases hm : monitorLoop env.steps env.checkStdout env.pullStderr fuel 0 with
      | none => rw [hm] at h; simp at h
      | some p =>
        obtain ⟨r, iters⟩ := p
        rw [hm] at h
        dsimp only at h
        simp only [Option.some.injEq] at h
        rw [← h] at ht
        simp only at ht
        rw [ht] at hm
        exact monitorLoop_true_requires env.steps env.checkStdout env.pullStderr
          fuel 0 iters hm

/-- Witness for C6: an environment in which the monitor returns true,
whence all three conditions hold. -/
theorem c6_monitor_true_requires_all_witness :
    waitForTestCompletion monitorEnvAllOk 1 = some ⟨true, true, 1⟩ ∧
    ((∃ j s, monitorEnvAllOk.steps j = .line s ∧ s ≠ "" ∧
        strContains s "ATP Test Finish!!" = true) ∧
      strContains monitorEnvAllOk.checkStdout "EXISTS" = true ∧
      strContains monitorEnvAllOk.pullStderr "1 file pulled" = true) :=
  ⟨by decide, c6_monitor_true_requires_all monitorEnvAllOk 1 ⟨true, true, 1⟩
    (by decide) rfl⟩

/-- Helper for C7: when the first k loop observations are lines without
the completion phrase and the k-th check sees the timeout elapsed, the
loop returns False after k + 1 iterations (for any sufficient fuel). -/
theorem monitorLoop_timeout_false (steps : Nat → MonitorStep) (cs ps : String) :
    ∀ k fuel i, (∀ j, j < k → stepNoFinish (steps (i + j)) = true) →
      steps (i + k) = .timeout → k < fuel →
      monitorLoop steps cs ps fuel i = some (false, i + k + 1) := by
  intro k
  induction k with
  | zero =>
    intro fuel i _ ht hf
    cases fuel with
    | zero => omega
    | succ n =>
      unfold monitorLoop
      rw [show i + 0 = i from rfl] at ht
      rw [ht]
  | succ m ih =>
    intro fuel i h ht hf
    cases fuel with
    | zero => omega
    | succ n =>
      have h0 : stepNoFinish (steps i) = true := by
        have := h 0 (by omega)
        rwa [show i + 0 = i from rfl] at this
      unfold monitorLoop
      cases hs : steps i with
      | timeout => rw [hs] at h0; simp [stepNoFinish] at h0
      | procExit => rw [hs] at h0; simp [stepNoFinish] at h0
      | line s =>
        rw [hs] at h0
        have hc : ¬ (s ≠ "" ∧ strContains s "ATP Test Finish!!" = true) := by
          intro hcon
          simp [stepNoFinish, hcon.1, hcon.2] at h0
        dsimp only
        rw [if_neg hc]
        have hrest : ∀ j, j < m → stepNoFinish (steps ((i + 1) + j)) = true := by
          intro j hj
          have := h (j + 1) (by omega)
          rwa [show i + (j + 1) = (i + 1) + j by omega] at this
        have ht' : steps ((i + 1) + m) = .timeout := by
          rwa [show i + (m + 1) = (i + 1) + m by omega] at ht
        rw [ih n (i + 1) hrest ht' (by omega)]
        have harith : i + 1 + m + 1 = i + (m + 1) + 1 := by omega
        rw [harith]

/-- Claim C7: when the device is ready and the broadcast acknowledged
but the wall-clock timeout elapses before any completion-phrase line,
waitForTestCompletion returns false and the background logcat process
is terminated; the loop ran exactly through its k observations plus
the timing-out check. -/
theorem c7_monitor_timeout_false_terminates (env : MonitorEnv) (k fuel : Nat)
    (hready : (checkAndGetAdbDevice env.adbPoll env.strDeviceId 30).ready = true)
    (hb : strContains env.broadcastStdout "Broadcast completed" = true)
    (h : ∀ j, j < k → stepNoFinish (env.steps j) = true)
    (ht : env.steps k = .timeout) (hf : k < fuel) :
    waitForTestCompletion env fuel = some ⟨false, true, k + 1⟩ := by
  unfold waitForTestCompletion
  rw [hready]
  rw [if_neg (by simp)]
  rw [hb, if_neg (by simp)]
  have hl := monitorLoop_timeout_false env.steps env.checkStdout env.pullStderr
    k fuel 0 (fun j hj => by simpa [Nat.zero_add] using h j hj)
    (by simpa [Nat.zero_add] using ht) hf
  rw [hl]
  simp [Nat.zero_add]

/-- Witness for C7: the timeout observed at the first loop check. -/
theorem c7_monitor_timeout_false_terminates_witness :
    (checkAndGetAdbDevice monitorEnvTimesOut.adbPoll
        monitorEnvTimesOut.strDeviceId 30).ready = true ∧
    strContains monitorEnvTimesOut.broadcastStdout "Broadcast completed" = true ∧
    monitorEnvTimesOut.steps 0 = .timeout ∧
    waitForTestCompletion monitorEnvTimesOut 1 = some ⟨false, true, 1⟩ :=
  ⟨by decide, by decide, rfl,
    c7_monitor_timeout_false_terminates monitorEnvTimesOut 0 1 (by decide)
      (by decide) (fun j hj => absurd hj (by omega)) rfl (by omega)⟩

/-- Claim C9: when the broadcast dispatch output lacks the literal
"Broadcast completed", waitForTestCompletion returns false at once -
the polling loop is entered zero times, even with zero fuel, so no part
of the timeout is waited - and the logcat process is still terminated
by the finally block. -/
theorem c9_broadcast_failure_immediate_false (env : MonitorEnv) (fuel : Nat)
    (hready : (checkAndGetAdbDevice env.adbPoll env.strDeviceId 30).ready = true)
    (hb : strContains env.broadcastStdout "Broadcast completed" = false) :
    waitForTestCompletion env fuel = some ⟨false, true, 0⟩ := by
  unfold waitForTestCompletion
  rw [hready]
  rw [if_neg (by simp)]
  rw [hb, if_pos rfl]

/-- Witness for C9: an unacknowledged broadcast with zero loop fuel
still returns immediately. -/
theorem c9_broadcast_failure_immediate_false_witness :
    (checkAndGetAdbDevice monitorEnvBroadcastFails.adbPoll
        monitorEnvBroadcastFails.strDeviceId 30).ready = true ∧
    strContains monitorEnvBroadcastFails.broadcastStdout "Broadcast completed"
      = false ∧
    waitForTestCompletion monitorEnvBroadcastFails 0 = some ⟨false, true, 0⟩ :=
  ⟨by decide, by decide,
    c9_broadcast_failure_immediate_false monitorEnvBroadcastFails 0 (by decide)
      (by decide)⟩

/-- Helper for C8: the retry loop performs at most its budget of
attempts beyond those already done. -/
theorem rxLoop_attempts_le (a : Nat → List (Int × Int)) (thr : Int) :
    ∀ r k, (rxLoop a thr r k).2 ≤ k + r := by
  intro r
  induction r with
  | zero => intro k; simp [rxLoop]
  | succ n ih =>
    intro k
    unfold rxLoop
    cases hl : (a k).getLast? with
    | none => exact le_trans (ih (k + 1)) (by omega)
    | some m =>
      dsimp only
      by_cases hm : thr ≤ m.2
      · rw [if_pos hm]; omega
      · rw [if_neg hm]; exact le_trans (ih (k + 1)) (by omega)

/-- Helper for C8: a value returned by the retry loop meets the
threshold and is the most recent parsed match of one of the attempts in
the window. -/
theorem rxLoop_value_sound (a : Nat → List (Int × Int)) (thr : Int) :
    ∀ r k v, (rxLoop a thr r k).1 = some v →
      thr ≤ v ∧ ∃ j, k ≤ j ∧ j < k + r ∧
        ((a j).getLast?).map Prod.snd = some v := by
  intro r
  induction r with
  | zero => intro k v h; simp [rxLoop] at h
  | succ n ih =>
    intro k v h
    unfold rxLoop at h
    cases hl : (a k).getLast? with
    | none =>
      rw [hl] at h
      obtain ⟨h1, j, hj1, hj2, hj3⟩ := ih (k + 1) v h
      exact ⟨h1, j, by omega, by omega, hj3⟩
    | some m =>
      rw [hl] at h
      dsimp only at h
      by_cases hm : thr ≤ m.2
      · rw [if_pos hm] at h
        simp only at h
        injection h with hv
        exact ⟨hv ▸ hm, k, le_refl k, by omega, by simp [hl, hv]⟩
      · rw [if_neg hm] at h
        obtain ⟨h1, j, hj1, hj2, hj3⟩ := ih (k + 1) v h
        exact ⟨h1, j, by omega, by omega, hj3⟩

/-- Helper for C8: when every attempt in the window parses no match or
a below-threshold value, the retry loop exhausts its budget and returns
no result. -/
theorem rxLoop_all_below (a : Nat → List (Int × Int)) (thr : Int) :
    ∀ r k, (∀ j, k ≤ j → j < k + r → ∀ m, (a j).getLast? = some m → m.2 < thr) →
      rxLoop a thr r k = (none, k + r) := by
  intro r
  induction r with
  | zero => intro k _; rfl
  | succ n ih =>
    intro k h
    have hrest : ∀ j, k + 1 ≤ j → j < (k + 1) + n → ∀ m,
        (a j).getLast? = some m → m.2 < thr :=
      fun j h1 h2 => h j (by omega) (by omega)
    have harith : k + 1 + n = k + (n + 1) := by omega
    unfold rxLoop
    cases hl : (a k).getLast? with
    | none => rw [ih (k + 1) hrest]; rw [harith]
    | some m =>
      have hbelow : m.2 < thr := h k (le_refl k) (by omega) m hl
      dsimp only
      rw [if_neg (not_le.mpr hbelow)]
      rw [ih (k + 1) hrest]; rw [harith]

/-- Helper for C8: the first attempt whose most recent parsed match
meets the threshold makes the retry loop return exactly that attempt's
value, immediately after that attempt. -/
theorem rxLoop_first_hit (a : Nat → List (Int × Int)) (thr : Int) :
    ∀ r k j, k ≤ j → j < k + r →
      (∀ i, k ≤ i → i < j → ∀ m, (a i).getLast? = some m → m.2 < thr) →
      ∀ m, (a j).getLast? = some m → thr ≤ m.2 →
      rxLoop a thr r k = (some m.2, j + 1) := by
  intro r
  induction r with
  | zero => intro k j h1 h2 _ _ _ _; omega
  | succ n ih =>
    intro k j h1 h2 hbefore m hm hthr
    by_cases hkj : j = k
    · subst hkj
      unfold rxLoop
      rw [hm]
      dsimp only
      rw [if_pos hthr]
    · have hlt : k < j := by omega
      unfold rxLoop
      cases hl : (a k).getLast? with
      | none =>
        exact ih (k + 1) j (by omega) (by omega)
          (fun i hi1 hi2 => hbefore i (by omega) hi2) m hm hthr
      | some m0 =>
        have hb : m0.2 < thr := hbefore k (le_refl k) hlt m0 hl
        dsimp only
        rw [if_neg (not_le.mpr hb)]
        exact ih (k + 1) j (by omega) (by omega)
          (fun i hi1 hi2 => hbefore i (by omega) hi2) m hm hthr

/-- Claim C8: getLTERXResult performs at most 3 measurement attempts;
any returned value meets the threshold and is the most recent parsed
match of one of those attempts; when the device is ready, the band
supported, and every attempt parses no match or a below-threshold
value, it performs exactly 3 attempts and returns no result; and
conversely, the first attempt whose most recent parsed value meets the
threshold makes it return exactly that value right after that attempt -
so an attempt's value is returned if and only if it meets the
threshold. -/
theorem c8_lte_rx_retry_policy (env : RxEnv) (iLteBand fRxThreshold : Int) :
    (getLTERXResult env iLteBand fRxThreshold).attempts ≤ 3 ∧
    (∀ v, (getLTERXResult env iLteBand fRxThreshold).value = some v →
      fRxThreshold ≤ v ∧ ∃ j, j < 3 ∧
        ((env.attempts j).getLast?).map Prod.snd = some v) ∧
    ((checkAndGetAdbDevice env.adbPoll none 30).ready = true →
      (iLteBand = 1 ∨ iLteBand = 26) →
      (∀ j, j < 3 → ∀ m, (env.attempts j).getLast? = some m →
        m.2 < fRxThreshold) →
      getLTERXResult env iLteBand fRxThreshold = ⟨none, 3⟩) ∧
    ((checkAndGetAdbDevice env.adbPoll none 30).ready = true →
      (iLteBand = 1 ∨ iLteBand = 26) →
      ∀ j, j < 3 →
        (∀ i, i < j → ∀ m, (env.attempts i).getLast? = some m →
          m.2 < fRxThreshold) →
        ∀ m, (env.attempts j).getLast? = some m → fRxThreshold ≤ m.2 →
        getLTERXResult env iLteBand fRxThreshold = ⟨some m.2, j + 1⟩) := by
  by_cases hg : (checkAndGetAdbDevice env.adbPoll none 30).ready = false
  · refine ⟨?_, ?_, ?_, ?_⟩
    · simp [getLTERXResult, hg]
    · intro v hv
      rw [getLTERXResult, if_pos hg] at hv
      simp at hv
    · intro hready
      rw [hready] at hg
      simp at hg
    · intro hready
      rw [hready] at hg
      simp at hg
  · by_cases hband : iLteBand = 1 ∨ iLteBand = 26
    · have hrw : getLTERXResult env iLteBand fRxThreshold =
          ⟨(rxLoop env.attempts fRxThreshold 3 0).1,
            (rxLoop env.attempts fRxThreshold 3 0).2⟩ := by
        rw [getLTERXResult, if_neg hg, if_pos hband]
      refine ⟨?_, ?_, ?_, ?_⟩
      · rw [hrw]
        simpa using rxLoop_attempts_le env.attempts fRxThreshold 3 0
      · intro v hv
        rw [hrw] at hv
        obtain ⟨h1, j, _, hj2, hj3⟩ :=
          rxLoop_value_sound env.attempts fRxThreshold 3 0 v hv
        exact ⟨h1, j, by omega, hj3⟩
      · intro _ _ hall
        rw [hrw, rxLoop_all_below env.attempts fRxThreshold 3 0
          (fun j _ hj2 => hall j (by omega))]
      · intro _ _ j hj3 hbefore m hm hthr
        rw [hrw, rxLoop_first_hit env.attempts fRxThreshold 3 0 j (by omega)
          (by omega) (fun i _ hi2 => hbefore i hi2) m hm hthr]
    · refine ⟨?_, ?_, ?_, ?_⟩
      · simp [getLTERXResult, hg, hband]
      · intro v hv
        rw [getLTERXResult, if_neg hg, if_neg hband] at hv
        simp at hv
      · intro _ hband2
        exact absurd hband2 hband
      · intro _ hband2
        exact absurd hband2 hband

/-- Witness for C8: with no attempt ever parsing a match, exactly 3
attempts and no result; with the first attempt below threshold and the
second meeting it, the second attempt's value is returned after exactly
2 attempts. -/
theorem c8_lte_rx_retry_policy_witness :
    (checkAndGetAdbDevice rxEnvNoMatch.adbPoll none 30).ready = true ∧
    getLTERXResult rxEnvNoMatch 1 (-50) = ⟨none, 3⟩ ∧
    (checkAndGetAdbDevice rxEnvSecondHit.adbPoll none 30).ready = true ∧
    (rxEnvSecondHit.attempts 1).getLast? = some (1, -40) ∧
    getLTERXResult rxEnvSecondHit 1 (-50) = ⟨some (-40), 2⟩ :=
  ⟨by decide,
    (c8_lte_rx_retry_policy rxEnvNoMatch 1 (-50)).2.2.1 (by decide) (Or.inl rfl)
      (fun j _ m hm => by simp [rxEnvNoMatch] at hm),
    by decide,
    by decide,
    (c8_lte_rx_retry_policy rxEnvSecondHit 1 (-50)).2.2.2 (by decide)
      (Or.inl rfl) 1 (by omega)
      (fun i hi m hm => by
        have hi0 : i = 0 := by omega
        subst hi0
        have h80 : (rxEnvSecondHit.attempts 0).getLast? =
            some ((1 : Int), (-80 : Int)) := by decide
        rw [h80] at hm
        injection hm with hm2
        rw [← hm2]
        decide)
      ((1 : Int), (-40 : Int)) (by decide) (by decide)⟩

/-- Claim C1: for atpfwdlProcess (given a COM port) every body outcome -
success, early return, or caught exception - is followed by exactly one
teardown REQ_INIT attempt whose own failure never escapes; but
sarfProcess violates the claim: when the initial REQ_INIT gets no
RES_INIT_OK, the body returns before `instrument` is bound, the finally
block's closeGPIB(instrument) raises UnboundLocalError, the teardown
REQ_INIT is attempted zero times, and the exception escapes the
procedure. -/
theorem c1_teardown_req_init_policy :
    (∀ env : AtpEnv, env.comPortGiven = true →
      (atpfwdlProcess env).teardownInits = 1 ∧
      (atpfwdlProcess env).outcome ≠ Outcome.exn) ∧
    (sarfProcess sarfEnvInitFails).teardownInits = 0 ∧
    (sarfProcess sarfEnvInitFails).outcome = Outcome.exn := by
  refine ⟨?_, by decide, by decide⟩
  intro env h
  unfold atpfwdlProcess
  rw [h, if_neg (by simp)]
  exact ⟨rfl, fun hcon => Outcome.noConfusion hcon⟩

/-- Witness for C1 at the all-success ATPFWDL environment. -/
theorem c1_teardown_req_init_policy_witness :
    atpEnvAllOk.comPortGiven = true ∧
    (atpfwdlProcess atpEnvAllOk).teardownInits = 1 ∧
    (atpfwdlProcess atpEnvAllOk).outcome ≠ Outcome.exn :=
  ⟨rfl, (c1_teardown_req_init_policy.1 atpEnvAllOk rfl).1,
    (c1_teardown_req_init_policy.1 atpEnvAllOk rfl).2⟩

/-- Claim C4 counterexample: in atpfwdlProcess (ATPFWDL.py) a failed
initial REQ_INIT aborts the procedure with result False; REQ_BOOT_ON is
never sent, contradicting warning-only continuation. -/
theorem c4_atpfwdl_init_fatal_counterexample :
    (atpfwdlProcess atpEnvReqInitFails).outcome = Outcome.ret false ∧
    "REQ_BOOT_ON" ∉ (atpfwdlProcess atpEnvReqInitFails).bodyUartSent := by
  decide

/-- Claim C4 amended: initial-REQ_INIT failure is warning-only in the
CT1_DL variant atpfwdl_process, which always continues to REQ_BOOT_ON
whatever the device answered REQ_INIT; in ATPFWDL.py's atpfwdlProcess
the same failure is fatal: the procedure returns False without sending
REQ_BOOT_ON. -/
theorem c4_init_warning_only_in_ct1dl_variant (env : AtpEnv)
    (h : env.comPortGiven = true) :
    "REQ_BOOT_ON" ∈ (atpfwdl_process env).bodyUartSent ∧
    (truthy (sendUartCommand "REQ_INIT" (env.uart 0)) = false →
      (atpfwdlProcess env).outcome = Outcome.ret false ∧
      "REQ_BOOT_ON" ∉ (atpfwdlProcess env).bodyUartSent) := by
  constructor
  · unfold atpfwdl_process
    rw [h, if_neg (by simp)]
    show "REQ_BOOT_ON" ∈ (atpfwdl_process_body env).2
    unfold atpfwdl_process_body
    split_ifs <;> decide
  · intro hf
    unfold atpfwdlProcess atpfwdlBody
    rw [h, if_neg (by simp)]
    rw [hf, if_pos (by simp)]
    exact ⟨rfl, by decide⟩

/-- Witness for C4 amended: the CT1_DL variant still reaches
REQ_BOOT_ON when the initial REQ_INIT reply is empty. -/
theorem c4_init_warning_only_in_ct1dl_variant_witness :
    atpEnvReqInitFails.comPortGiven = true ∧
    "REQ_BOOT_ON" ∈ (atpfwdl_process atpEnvReqInitFails).bodyUartSent :=
  ⟨rfl, (c4_init_warning_only_in_ct1dl_variant atpEnvReqInitFails rfl).1⟩
